import Mathlib

/-!
Verification development for the groovygarden dance-chain platform.

The first part embeds, directly from the TypeScript sources, the client-side
helpers the claims refer to: `validateDanceChain` (lib/api-client.ts),
`uploadVideo` (lib/api-hooks.ts), the `VideoRecorder` component
(components/layout/Navbar.tsx) and `getStatusColor` (the chain-list page).
The second part models the dance-move verification engine and the chain
state machine from the specification, since the backend implementing them is
not part of the repository snapshot.
-/

namespace GroovyGarden

/-- Input record of `validateDanceChain` (lib/api-client.ts).  `title`,
`description` and `category` are required strings in the TypeScript
signature; `max_moves` is optional. -/
structure DanceChainData where
  title : String
  description : String
  category : String
  max_moves : Option Int
deriving Repr, DecidableEq

/-- Embedding of `validateDanceChain` (lib/api-client.ts, lines 184-212).
Each failed check pushes one error message; the result is valid exactly when
the error list is empty.  JavaScript truthiness tests `!data.title`,
`data.description &&` and `!data.category` are rendered as equality with the
empty string. -/
def validateDanceChain (d : DanceChainData) : Bool × List String :=
  let e1 : List String :=
    if d.title = ("") ∨ d.title.length < 3 ∨ d.title.length > 200 then
      [("Title must be between 3 and 200 characters")] else []
  let e2 : List String :=
    if d.description ≠ ("") ∧ d.description.length > 1000 then
      [("Description must be 1000 characters or less")] else []
  let e3 : List String :=
    if d.category = ("") ∨ d.category.length < 1 ∨ d.category.length > 50 then
      [("Category must be between 1 and 50 characters")] else []
  let e4 : List String :=
    match d.max_moves with
    | none => []
    | some m => if m < 2 ∨ m > 50 then [("Max moves must be between 2 and 50")] else []
  let errors := e1 ++ e2 ++ e3 ++ e4
  (errors = [], errors)

/-- The relevant attributes of a browser `File` object: MIME type and size in
bytes. -/
structure FileInfo where
  mime : String
  size : Nat
deriving Repr, DecidableEq

/-- Outcome of one call of `uploadVideo`: the returned value (`none` models
JavaScript `null`), the error message set via `setError`, and whether a
network request was issued. -/
structure UploadStep where
  result : Option Nat
  uploadError : Option String
  requestSent : Bool
deriving Repr, DecidableEq

/-- Embedding of `uploadVideo` (lib/api-hooks.ts, lines 273-319).  The two
client-side guards run before any network activity; `serverResponse` stands
for the response body of the `fetch` call when one is made (`none` models a
failed request, which the source surfaces as a thrown error after setting an
error message). -/
def uploadVideo (f : FileInfo) (serverResponse : Option Nat) : UploadStep :=
  if ¬ f.mime.startsWith ("video/") then
    { result := none, uploadError := some ("File must be a video"), requestSent := false }
  else if 50 * 1024 * 1024 < f.size then
    { result := none, uploadError := some ("Video file too large (max 50MB)"), requestSent := false }
  else
    match serverResponse with
    | some v => { result := some v, uploadError := none, requestSent := true }
    | none => { result := none, uploadError := some ("Upload failed"), requestSent := true }

/-- The `VideoRecorder` component state relevant to recording duration
(components/layout/Navbar.tsx): the recorded blob (abstracted to an
identifier), the running timer value in seconds, the recording flag and the
error message.  Times are rationals: the timer adds 0.1 per tick. -/
structure RecorderState where
  isRecording : Bool
  recordingTime : ℚ
  recordedBlob : Option Nat
  recError : Option String
deriving Repr, DecidableEq

/-- Default of the `minDurationSeconds` prop of `VideoRecorder`. -/
def videoRecorderDefaultMin : ℚ := 5

/-- Default of the `maxDurationSeconds` prop of `VideoRecorder`. -/
def videoRecorderDefaultMax : ℚ := 10

/-- Embedding of `confirmRecording` (Navbar.tsx, lines 370-378): with a
recorded blob present, a recording shorter than `minDurationSeconds` sets an
on-screen error and returns without invoking `onVideoRecorded`; otherwise the
blob is passed to the callback (the second component below). -/
def confirmRecording (minDurationSeconds : ℚ) (s : RecorderState) :
    RecorderState × Option Nat :=
  match s.recordedBlob with
  | none => (s, none)
  | some b =>
    if s.recordingTime < minDurationSeconds then
      ({ s with recError := some ("Recording must be at least the minimum seconds long.") }, none)
    else
      (s, some b)

/-- Embedding of `stopRecording` (Navbar.tsx, lines 347-357): guarded by
`mediaRecorderRef.current && isRecording`, where `isRecording` is the value
captured by the closure's render; only when the guard passes does it stop the
recorder, clear the flag and clear the timer.  The recorder ref is non-null
during an active recording, so the guard reduces to the captured flag. -/
def stopRecording (capturedIsRecording : Bool) (s : RecorderState) : RecorderState :=
  if capturedIsRecording then { s with isRecording := false } else s

/-- Embedding of the recording timer callback (Navbar.tsx, lines 331-339):
every 100 ms it adds 0.1 to `recordingTime` and, once the new value reaches
`maxDurationSeconds`, calls the `stopRecording` instance captured when the
interval was created.  That instance comes from the render that ran
`startRecording`, in which the `isRecording` state constant was still
`false`, so the captured guard value is `false` (stale closure). -/
def recorderTick (maxDurationSeconds : ℚ) (s : RecorderState) : RecorderState :=
  let s1 := { s with recordingTime := s.recordingTime + 1 / 10 }
  if maxDurationSeconds ≤ s.recordingTime + 1 / 10 then stopRecording false s1 else s1

/-- Embedding of `getStatusColor` (the chain-list page, src/unnamed/part_005
lines 447-454): a `switch` over the chain status string. -/
def getStatusColor (status : String) : String :=
  if status = ("active") then ("bg-green-100 text-green-800")
  else if status = ("completed") then ("bg-blue-100 text-blue-800")
  else if status = ("archived") then ("bg-gray-100 text-gray-800")
  else ("bg-gray-100 text-gray-800")

/-- Embedding of the status badge class in `ChainView`
(components/pages/ChainView.tsx, lines 303-305). -/
def chainViewStatusBadge (status : String) : String :=
  if status = ("active") then ("bg-green-100 text-green-800")
  else ("bg-blue-100 text-blue-800")

/-- Modelled from the spec: one detected body keypoint of a `LandmarkFrame`
(§3) — 2D position plus a confidence in `[0,1]`.  The backend implementing
the verification engine is not part of the repository snapshot. -/
structure Keypoint where
  x : ℚ
  y : ℚ
  conf : ℚ
deriving Repr, DecidableEq

/-- Modelled from the spec: a `LandmarkFrame` is an ordered list of keypoints
(§3). -/
abbrev LandmarkFrame := List Keypoint

/-- Modelled from the spec: a `NormalizedPose` is a fixed-length feature
vector with per-feature validity flags (§3, §4.1); an invalid (missing)
feature is `none`. -/
abbrev NormalizedPose := List (Option ℚ)

/-- Modelled from the spec: a `ReferenceMove` is an ordered sequence of
normalized poses (§3). -/
abbrev ReferenceMove := List NormalizedPose

/-- Modelled from the spec: the `VerificationConfig` options with their
documented defaults (§6). -/
structure VerificationConfig where
  perMoveThreshold : ℚ := 3 / 4
  minNewMoveFrames : ℕ := 30
  minLandmarkConfidence : ℚ := 1 / 2
  maxMissingKeypointFraction : ℚ := 3 / 10
  maxSequenceCostBudget : ℕ := 100000
deriving Repr, DecidableEq

/-- Clamp a rational into `[0,1]`. -/
def clamp01 (q : ℚ) : ℚ := max 0 (min 1 q)

/-- Modelled from the spec: the Pose Normalizer (§4.1), absent from the
snapshot.  A frame whose low-confidence keypoint count exceeds
`maxMissingKeypointFraction` of its keypoints is rejected
(`InsufficientLandmarks`, rendered as `none`).  Otherwise keypoints are
translated so the anchor (the first keypoint) is the origin and scaled so the
reference bone (first-to-second keypoint, measured in the L1 norm to stay in
ℚ) has length 1; remaining low-confidence keypoints are marked missing and
excluded downstream. -/
def normalizeFrame (cfg : VerificationConfig) (f : LandmarkFrame) : Option NormalizedPose :=
  let low := (f.filter (fun k => k.conf < cfg.minLandmarkConfidence)).length
  if cfg.maxMissingKeypointFraction * (f.length : ℚ) < (low : ℚ) then none
  else
    let a := f.getD 0 ⟨0, 0, 0⟩
    let b := f.getD 1 ⟨0, 0, 0⟩
    let bone := |b.x - a.x| + |b.y - a.y|
    let s := if bone = 0 then 1 else bone
    some (f.foldr (fun k acc =>
      (if k.conf < cfg.minLandmarkConfidence then none else some ((k.x - a.x) / s)) ::
      (if k.conf < cfg.minLandmarkConfidence then none else some ((k.y - a.y) / s)) :: acc) [])

/-- Modelled from the spec: normalization of a whole candidate sequence; a
single unnormalizable frame rejects the whole submission (§7,
`InsufficientLandmarks`). -/
def normalizeAll (cfg : VerificationConfig) : List LandmarkFrame → Option (List NormalizedPose)
  | [] => some []
  | f :: fs =>
    match normalizeFrame cfg f, normalizeAll cfg fs with
    | some p, some ps => some (p :: ps)
    | _, _ => none

/-- The features valid in both poses (§4.3: distances are restricted to
jointly-valid features). -/
def jointFeatures (u v : NormalizedPose) : List (ℚ × ℚ) :=
  (u.zip v).filterMap (fun p =>
    match p with
    | (some a, some b) => some (a, b)
    | _ => none)

/-- Modelled from the spec: per-frame similarity (§4.3) — cosine similarity
over jointly-valid features, represented by its square (with nonpositive dot
products mapped to 0) to remain in ℚ, clamped into `[0,1]`; if no
jointly-valid feature remains the pair is treated as a complete mismatch
(similarity 0). -/
def simFrame (u v : NormalizedPose) : ℚ :=
  let ps := jointFeatures u v
  if ps = [] then 0
  else
    let dot := (ps.map (fun p => p.1 * p.2)).sum
    let nu := (ps.map (fun p => p.1 * p.1)).sum
    let nv := (ps.map (fun p => p.2 * p.2)).sum
    if dot ≤ 0 then 0
    else if nu * nv = 0 then 0
    else clamp01 (dot * dot / (nu * nv))

/-- Minimum of two optional costs, `none` standing for an unreachable
(infinite-cost) DTW cell. -/
def optMin : Option ℚ → Option ℚ → Option ℚ
  | none, b => b
  | a, none => a
  | some a, some b => some (min a b)

/-- Add a local cost to an optional accumulated cost. -/
def optAdd (c : ℚ) : Option ℚ → Option ℚ
  | none => none
  | some a => some (a + c)

/-- Comparison of optional costs with `none` as infinity. -/
def optLe : Option ℚ → Option ℚ → Bool
  | none, none => true
  | none, some _ => false
  | some _, none => true
  | some a, some b => decide (a ≤ b)

/-- One DTW row beyond column 0: `curPrev` is the cell just built in this
row, `diag` the cell above-left, the list argument the rest of the previous
row, and `costs` the local costs of the remaining columns. -/
def dtwRowAux (curPrev diag : Option ℚ) : List (Option ℚ) → List ℚ → List (Option ℚ)
  | up :: prevRest, c :: cs =>
    let v := optAdd c (optMin diag (optMin up curPrev))
    v :: dtwRowAux v up prevRest cs
  | _, _ => []

/-- A full DTW row from the previous row and this row's local costs; column 0
is unreachable for every reference row past the first. -/
def dtwRow (prev : List (Option ℚ)) (costs : List ℚ) : List (Option ℚ) :=
  match prev with
  | [] => []
  | p0 :: rest => none :: dtwRowAux none p0 rest costs

/-- Modelled from the spec: the rows of the constrained-DTW cost matrix
(§4.2), one per reference frame, local cost `1 - simFrame`. -/
def dtwRows (cand : List NormalizedPose) : List NormalizedPose → List (Option ℚ) → List (List (Option ℚ))
  | [], _ => []
  | r :: rs, prev =>
    let row := dtwRow prev (cand.map (fun c => 1 - simFrame r c))
    row :: dtwRows cand rs row

/-- Cell lookup in a DTW table, out-of-range cells unreachable. -/
def tbl (t : List (List (Option ℚ))) (i j : ℕ) : Option ℚ :=
  (t.getD i []).getD j none

/-- Minimum reachable cost in a row, column 0 excluded. -/
def rowMin (row : List (Option ℚ)) : Option ℚ :=
  (row.drop 1).foldl optMin none

/-- First column (≥ 1) attaining the row minimum — the candidate frame where
the matched portion ends (§4.2: frames after it are free lead-out). -/
def rowArgmin (row : List (Option ℚ)) : Option ℕ :=
  match rowMin row with
  | none => none
  | some m => ((List.range row.length).drop 1).find? (fun j => decide (row.getD j none = some m))

/-- Modelled from the spec: DTW path backtracking (§4.2) from cell `(i, j)`,
stepping to the cheapest predecessor (diagonal preferred, then up, then
left), stopping at the free row 0.  The first argument after the table is
fuel bounding the path length. -/
def backtrack (t : List (List (Option ℚ))) : ℕ → ℕ → ℕ → List (ℕ × ℕ)
  | 0, _, _ => []
  | _ + 1, 0, _ => []
  | _ + 1, _, 0 => []
  | fuel + 1, i + 1, j + 1 =>
    let diag := tbl t i j
    let up := tbl t i (j + 1)
    let left := tbl t (i + 1) j
    (i + 1, j + 1) ::
      (if optLe diag up && optLe diag left then backtrack t fuel i j
       else if optLe up left then backtrack t fuel i (j + 1)
       else backtrack t fuel (i + 1) j)

/-- Modelled from the spec: an `AlignmentWindow` is a contiguous sub-range
`[start, stop)` of the candidate (§3). -/
structure AlignmentWindow where
  start : ℕ
  stop : ℕ
deriving Repr, DecidableEq

/-- Move-boundary indices in the concatenated reference sequence (§4.2). -/
def boundaries (refs : List ReferenceMove) : List ℕ :=
  (refs.map List.length).scanl (fun a b => a + b) 0

/-- The path pairs whose (1-based) reference index falls in one move's
boundary range. -/
def movePairs (path : List (ℕ × ℕ)) (lo hi : ℕ) : List (ℕ × ℕ) :=
  path.filter (fun p => decide (lo < p.1 ∧ p.1 ≤ hi))

/-- Modelled from the spec: the Similarity Scorer's window score (§4.3) — the
path-normalized average per-pair similarity along the matched sub-path,
clamped into `[0,1]` per the scorer contract. -/
def moveScore (rc cand : List NormalizedPose) (pairs : List (ℕ × ℕ)) : ℚ :=
  if pairs = [] then 0
  else
    let sims := pairs.map (fun p => simFrame (rc.getD (p.1 - 1) []) (cand.getD (p.2 - 1) []))
    clamp01 (sims.sum / (sims.length : ℚ))

/-- The candidate window spanned by one move's path pairs (0-based,
half-open). -/
def moveWindow (pairs : List (ℕ × ℕ)) : AlignmentWindow :=
  let js := pairs.map (fun p => p.2)
  { start := js.foldl min (js.getD 0 0) - 1, stop := js.foldl max 0 }

/-- The Segment Aligner's output: one window and one score per reference
move, and the 1-based candidate index at which the matched portion ends. -/
structure AlignOutput where
  windows : List AlignmentWindow
  scores : List ℚ
  tailStart : ℕ
deriving Repr, DecidableEq

/-- The full DTW table of the Segment Aligner: the free row 0 followed by one
row per concatenated reference frame. -/
def alignTable (refs : List ReferenceMove) (cand : List NormalizedPose) :
    List (List (Option ℚ)) :=
  List.replicate (cand.length + 1) (some 0) ::
    dtwRows cand refs.flatten (List.replicate (cand.length + 1) (some 0))

/-- The backtracked warping path (in ascending order) ending at candidate
column `jstar`. -/
def alignWarpPath (refs : List ReferenceMove) (cand : List NormalizedPose) (jstar : ℕ) :
    List (ℕ × ℕ) :=
  (backtrack (alignTable refs cand) (refs.flatten.length + cand.length + 1)
    refs.flatten.length jstar).reverse

/-- Modelled from the spec: the Segment Aligner (§4.2), absent from the
snapshot.  Runs constrained DTW of the concatenated reference moves against
the candidate (free candidate prefix and suffix), backtracks the optimal
path, and cuts it at the reference move boundaries into per-move windows and
scores; returns `none` when no monotonic assignment exists at all. -/
def align (refs : List ReferenceMove) (cand : List NormalizedPose) : Option AlignOutput :=
  match rowArgmin ((alignTable refs cand).getD refs.flatten.length []) with
  | none => none
  | some jstar =>
    if alignWarpPath refs cand jstar = [] then none
    else
      some
        { windows := (List.range refs.length).map (fun k =>
            moveWindow (movePairs (alignWarpPath refs cand jstar)
              ((boundaries refs).getD k 0) ((boundaries refs).getD (k + 1) 0))),
          scores := (List.range refs.length).map (fun k =>
            moveScore refs.flatten cand (movePairs (alignWarpPath refs cand jstar)
              ((boundaries refs).getD k 0) ((boundaries refs).getD (k + 1) 0))),
          tailStart := jstar }

/-- A normalized frame counting as a valid-landmark frame: at least one valid
feature. -/
def validFrame (p : NormalizedPose) : Bool := p.any (fun o => o.isSome)

/-- Modelled from the spec: the new-move acceptance test (§4.4) — the
proposed new move must be at least `minNewMoveFrames` long and contain at
least that many valid-landmark frames. -/
def newMoveOk (cfg : VerificationConfig) (tailFrames : List NormalizedPose) : Bool :=
  decide (cfg.minNewMoveFrames ≤ tailFrames.length) &&
    decide (cfg.minNewMoveFrames ≤ (tailFrames.filter validFrame).length)

/-- Modelled from the spec: the rejection kinds of the error taxonomy (§7). -/
inductive RejectReason
  | insufficientLandmarks
  | sequenceTooLong
  | sequenceOutOfOrder
  | incompletePriorMoves
  | noNewMoveDetected
deriving Repr, DecidableEq

/-- Modelled from the spec: the decision of one verification attempt
(§4.4). -/
inductive Decision
  | accepted
  | rejected (reason : RejectReason)
deriving Repr, DecidableEq

/-- Modelled from the spec: the `VerificationResult` record (§6). -/
structure VerificationResult where
  decision : Decision
  aggregateScore : ℚ
  perMoveScores : List ℚ
  newMoveFrames : Option (List NormalizedPose)
  diagnostics : List AlignmentWindow
deriving Repr, DecidableEq

/-- The equal-weight mean of the per-move scores (§4.4); on an empty list the
rational division by zero yields 0. -/
def aggregateOf (scores : List ℚ) : ℚ := scores.sum / (scores.length : ℚ)

/-- A rejected `VerificationResult` carrying the diagnostics available at the
rejection point. -/
def rejectWith (r : RejectReason) (scores : List ℚ) (diag : List AlignmentWindow) :
    VerificationResult :=
  { decision := .rejected r, aggregateScore := 0, perMoveScores := scores,
    newMoveFrames := none, diagnostics := diag }

/-- Modelled from the spec: `verify_submission` (§6, policy §4.4), absent
from the snapshot.  Normalize the candidate frames (whole-submission
`InsufficientLandmarks` on any bad frame); for an empty chain the Aligner is
a no-op and the whole candidate is the proposed new move; otherwise enforce
the R×C compute budget (`SequenceTooLong`), align (`SequenceOutOfOrder` when
impossible), reject `IncompletePriorMoves` when any per-move score falls
below `perMoveThreshold`, reject `NoNewMoveDetected` when the unmatched tail
fails the new-move test, and otherwise accept with the mean aggregate
score. -/
def verify_submission (refs : List ReferenceMove) (frames : List LandmarkFrame)
    (cfg : VerificationConfig) : VerificationResult :=
  match normalizeAll cfg frames with
  | none => rejectWith .insufficientLandmarks [] []
  | some cand =>
    if refs.isEmpty then
      if newMoveOk cfg cand then
        { decision := .accepted, aggregateScore := aggregateOf [], perMoveScores := [],
          newMoveFrames := some cand, diagnostics := [] }
      else rejectWith .noNewMoveDetected [] []
    else
      if cfg.maxSequenceCostBudget < refs.flatten.length * cand.length then
        rejectWith .sequenceTooLong [] []
      else
        match align refs cand with
        | none => rejectWith .sequenceOutOfOrder [] []
        | some out =>
          if out.scores.any (fun s => decide (s < cfg.perMoveThreshold)) then
            rejectWith .incompletePriorMoves out.scores out.windows
          else
            if newMoveOk cfg (cand.drop out.tailStart) then
              { decision := .accepted, aggregateScore := aggregateOf out.scores,
                perMoveScores := out.scores, newMoveFrames := some (cand.drop out.tailStart),
                diagnostics := out.windows }
            else rejectWith .noNewMoveDetected out.scores out.windows

/-- Modelled from the spec: `ChainState` (§3) — the accepted moves, the
status string as stored and displayed by the frontend, and the maximum
length. -/
structure ChainState where
  moves : List ReferenceMove
  status : String
  maxMoves : ℕ
deriving Repr, DecidableEq

/-- A freshly created chain: no moves, status `active`. -/
def mkChain (maxMoves : ℕ) : ChainState :=
  { moves := [], status := ("active"), maxMoves := maxMoves }

/-- Modelled from the spec: the Chain State Machine's commit (§4.5), absent
from the snapshot.  On `Accepted` it appends the new reference move and
marks the chain `completed` once the move count reaches `maxMoves`
(`Completed` is terminal, so a completed chain is left untouched); on
`Rejected` nothing is mutated and the reason is surfaced to the caller. -/
def commit (s : ChainState) (d : Decision) (newMove : ReferenceMove) :
    ChainState × Option RejectReason :=
  match d with
  | .rejected r => (s, some r)
  | .accepted =>
    if s.status = ("completed") then (s, none)
    else
      let moves := s.moves ++ [newMove]
      ({ moves := moves,
         status := if s.maxMoves ≤ moves.length then ("completed") else ("active"),
         maxMoves := s.maxMoves }, none)

/-- A chain evolved from creation by a sequence of committed decisions. -/
def runChain (maxMoves : ℕ) (evs : List (Decision × ReferenceMove)) : ChainState :=
  evs.foldl (fun s e => (commit s e.1 e.2).1) (mkChain maxMoves)

/-- A sample landmark frame (anchor, unit bone, third keypoint right of the
anchor), fully confident. -/
def kpA : LandmarkFrame := [⟨0, 0, 1⟩, ⟨1, 0, 1⟩, ⟨1, 0, 1⟩]

/-- A sample landmark frame like `kpA` but with the third keypoint left of
the anchor. -/
def kpB : LandmarkFrame := [⟨0, 0, 1⟩, ⟨1, 0, 1⟩, ⟨-1, 0, 1⟩]

/-- The normalized pose of `kpA`. -/
def poseA : NormalizedPose := [some 0, some 0, some 1, some 0, some 1, some 0]

/-- The normalized pose of `kpB`. -/
def poseB : NormalizedPose := [some 0, some 0, some 1, some 0, some (-1), some 0]

/-- A configuration whose minimum new-move length is two frames, for small
concrete checks. -/
def smallConfig : VerificationConfig := { minNewMoveFrames := 2 }

/-- Committing any decision keeps the chain status in the two-value set
maintained by the state machine. -/
lemma commit_status_mem (s : ChainState) (d : Decision) (m : ReferenceMove)
    (h : s.status = ("active") ∨ s.status = ("completed")) :
    (commit s d m).1.status = ("active") ∨ (commit s d m).1.status = ("completed") := by
  cases d with
  | rejected r => exact h
  | accepted =>
    unfold commit
    by_cases hc : s.status = ("completed")
    · simp [hc]
    · simp only [hc, if_false]
      split
      · right; rfl
      · left; rfl

/-- Folding commits over any event list preserves the two-value status
invariant. -/
lemma foldl_commit_status (evs : List (Decision × ReferenceMove)) (s : ChainState)
    (h : s.status = ("active") ∨ s.status = ("completed")) :
    ((evs.foldl (fun s e => (commit s e.1 e.2).1) s).status = ("active") ∨
      (evs.foldl (fun s e => (commit s e.1 e.2).1) s).status = ("completed")) := by
  induction evs generalizing s with
  | nil => exact h
  | cons e es ih => exact ih _ (commit_status_mem s e.1 e.2 h)

/-- C1: every chain's status, as maintained by the Chain State Machine and
observed over chain state, is either `active` or `completed`; in particular
the `archived` and fallback branches of the chain-list page's
`getStatusColor` never fire on a status the state machine produced. -/
theorem chain_status_binary (maxMoves : ℕ) (evs : List (Decision × ReferenceMove)) :
    ((runChain maxMoves evs).status = ("active") ∨
      (runChain maxMoves evs).status = ("completed")) ∧
    (getStatusColor (runChain maxMoves evs).status = ("bg-green-100 text-green-800") ∨
      getStatusColor (runChain maxMoves evs).status = ("bg-blue-100 text-blue-800")) := by
  unfold runChain
  have h := foldl_commit_status evs (mkChain maxMoves) (Or.inl rfl)
  refine ⟨h, ?_⟩
  rcases h with h | h <;> simp [getStatusColor, h]

/-- C2: committing an Accepted verification to an active, unfull chain
appends the move and completes the chain exactly when the incremented move
count reaches `maxMoves`; a Rejected verification mutates nothing and
surfaces its reason. -/
theorem commit_transition_spec (s : ChainState) (m : ReferenceMove)
    (hact : s.status = ("active")) (hlt : s.moves.length < s.maxMoves) :
    (commit s Decision.accepted m).1.moves = s.moves ++ [m] ∧
    ((commit s Decision.accepted m).1.status = ("completed") ↔
      s.moves.length + 1 = s.maxMoves) ∧
    ((commit s Decision.accepted m).1.status = ("active") ↔
      s.moves.length + 1 ≠ s.maxMoves) ∧
    (commit s Decision.accepted m).2 = none ∧
    (∀ r : RejectReason, commit s (Decision.rejected r) m = (s, some r)) := by
  have hne : s.status ≠ ("completed") := by rw [hact]; decide
  have hmoves : (commit s Decision.accepted m).1.moves = s.moves ++ [m] := by
    simp [commit, hne]
  have hstat : (commit s Decision.accepted m).1.status =
      (if s.maxMoves ≤ s.moves.length + 1 then ("completed") else ("active")) := by
    simp [commit, hne]
  refine ⟨hmoves, ?_, ?_, by simp [commit, hne], fun r => rfl⟩
  · rw [hstat]
    by_cases hle : s.maxMoves ≤ s.moves.length + 1
    · rw [if_pos hle]
      exact ⟨fun _ => by omega, fun _ => rfl⟩
    · rw [if_neg hle]
      exact ⟨fun h2 => absurd h2 (by decide), fun h2 => absurd h2 (by omega)⟩
  · rw [hstat]
    by_cases hle : s.maxMoves ≤ s.moves.length + 1
    · rw [if_pos hle]
      exact ⟨fun h2 => absurd h2 (by decide),
        fun h2 => absurd (show s.moves.length + 1 = s.maxMoves by omega) h2⟩
    · rw [if_neg hle]
      exact ⟨fun _ => by omega, fun _ => rfl⟩

/-- Witness for C2 at a one-slot chain: the first accepted commit completes
it. -/
theorem commit_transition_spec_witness :
    (commit { moves := [], status := ("active"), maxMoves := 1 }
        Decision.accepted ([] : ReferenceMove)).1.status = ("completed") := by
  have h := commit_transition_spec
    { moves := [], status := ("active"), maxMoves := 1 } ([] : ReferenceMove) rfl (by decide)
  exact h.2.1.mpr (by decide)

/-- C8: the timer does NOT automatically stop a recording at
`maxDurationSeconds`, contrary to the code's evident intent: at the failing
input (a recording at 9.9 s with the default 10 s maximum) the tick crosses
the threshold and calls the interval's captured `stopRecording`, whose stale
`isRecording` guard value is `false`, so `isRecording` stays `true`; a fresh
(non-stale) `stopRecording`, with the guard `true`, would have stopped it.
The `minDurationSeconds` gating of `confirmRecording` does hold: below the
5-second default no callback fires and an error is set. -/
theorem video_recorder_autostop_bug :
    videoRecorderDefaultMax ≤ (recorderTick videoRecorderDefaultMax
      { isRecording := true, recordingTime := 99 / 10, recordedBlob := none,
        recError := none }).recordingTime ∧
    (recorderTick videoRecorderDefaultMax
      { isRecording := true, recordingTime := 99 / 10, recordedBlob := none,
        recError := none }).isRecording = true ∧
    (stopRecording true
      { isRecording := true, recordingTime := 10, recordedBlob := none,
        recError := none }).isRecording = false ∧
    (confirmRecording videoRecorderDefaultMin
      { isRecording := false, recordingTime := 3, recordedBlob := some 7,
        recError := none }).2 = none ∧
    (confirmRecording videoRecorderDefaultMin
      { isRecording := false, recordingTime := 3, recordedBlob := some 7,
        recError := none }).1.recError ≠ none ∧
    (confirmRecording videoRecorderDefaultMin
      { isRecording := false, recordingTime := 6, recordedBlob := some 7,
        recError := none }).2 = some 7 := by
  with_unfolding_all decide

/-- C9: `uploadVideo` returns null and sets an error, without issuing a
network request, for any non-video file and any file over 50 MiB; a request
is only sent for video files of at most 50 MiB. -/
theorem uploadVideo_guard_spec (f : FileInfo) (resp : Option Nat) :
    ((f.mime.startsWith ("video/") = false ∨ 50 * 1024 * 1024 < f.size) →
      (uploadVideo f resp).result = none ∧ (uploadVideo f resp).uploadError ≠ none ∧
        (uploadVideo f resp).requestSent = false) ∧
    ((uploadVideo f resp).requestSent = true →
      f.mime.startsWith ("video/") = true ∧ f.size ≤ 50 * 1024 * 1024) := by
  unfold uploadVideo
  by_cases hv : f.mime.startsWith ("video/") = true
  · by_cases hs : 50 * 1024 * 1024 < f.size
    · simp [hv, hs]
    · cases resp <;> simp [hv, hs] <;> omega
  · simp [hv]

/-- Witness for C9: a 60,000,000-byte video exceeds the 52,428,800-byte cap,
so no request is issued and null is returned. -/
theorem uploadVideo_guard_spec_witness :
    (uploadVideo { mime := ("video/mp4"), size := 60000000 } none).result = none ∧
    (uploadVideo { mime := ("video/mp4"), size := 60000000 } none).requestSent = false := by
  have h := (uploadVideo_guard_spec { mime := ("video/mp4"), size := 60000000 } none).1
    (Or.inr (by norm_num))
  exact ⟨h.1, h.2.2⟩

/-- C10: `validateDanceChain` is valid exactly for titles of 3-200
characters, descriptions of at most 1000 characters, categories of 1-50
characters and `max_moves`, when given, between 2 and 50; any invalid input
yields at least one error message. -/
theorem validateDanceChain_spec (d : DanceChainData) :
    ((validateDanceChain d).1 = true ↔
      (3 ≤ d.title.length ∧ d.title.length ≤ 200 ∧ d.description.length ≤ 1000 ∧
        1 ≤ d.category.length ∧ d.category.length ≤ 50 ∧
        ∀ m ∈ d.max_moves, 2 ≤ m ∧ m ≤ 50)) ∧
    ((validateDanceChain d).1 = false → (validateDanceChain d).2 ≠ []) := by
  obtain ⟨t, de, c, mm⟩ := d
  dsimp only
  have ht0 : t = ("") → t.length = 0 := by intro h; rw [h]; rfl
  have hde0 : de = ("") → de.length = 0 := by intro h; rw [h]; rfl
  have hc0 : c = ("") → c.length = 0 := by intro h; rw [h]; rfl
  have hproj : (validateDanceChain ⟨t, de, c, mm⟩).1 =
      decide ((validateDanceChain ⟨t, de, c, mm⟩).2 = []) := rfl
  have hiff : (validateDanceChain ⟨t, de, c, mm⟩).2 = [] ↔
      (¬(t = ("") ∨ t.length < 3 ∨ t.length > 200) ∧
        ¬(de ≠ ("") ∧ de.length > 1000) ∧
        ¬(c = ("") ∨ c.length < 1 ∨ c.length > 50) ∧
        (∀ m ∈ mm, ¬(m < 2 ∨ m > 50))) := by
    unfold validateDanceChain
    cases mm <;> split_ifs <;> simp_all
  constructor
  · rw [hproj, decide_eq_true_iff, hiff]
    constructor
    · rintro ⟨ha, hb, hcc, hd⟩
      push_neg at ha hb hcc
      refine ⟨ha.2.1, ha.2.2, ?_, hcc.2.1, hcc.2.2, ?_⟩
      · by_cases hde : de = ("")
        · rw [hde0 hde]; omega
        · exact hb hde
      · intro m hm
        have := hd m hm
        push_neg at this
        omega
    · rintro ⟨h3le, h200, hde1000, hc1, hc50, hmm⟩
      refine ⟨?_, ?_, ?_, ?_⟩
      · push_neg
        refine ⟨?_, by omega, by omega⟩
        intro heq
        rw [heq] at h3le
        exact absurd h3le (by decide)
      · push_neg
        intro _
        omega
      · push_neg
        refine ⟨?_, by omega, by omega⟩
        intro heq
        rw [heq] at hc1
        exact absurd hc1 (by decide)
      · intro m hm
        have := hmm m hm
        push_neg
        omega
  · intro hf hnil
    rw [hproj, hnil] at hf
    simp at hf

/-- Witness for C10: a 2-character title is invalid and produces an error
message. -/
theorem validateDanceChain_spec_witness :
    (validateDanceChain
      { title := ("ab"), description := (""), category := ("x"), max_moves := none }).2 ≠ [] := by
  have h := validateDanceChain_spec
    { title := ("ab"), description := (""), category := ("x"), max_moves := none }
  refine h.2 ?_
  have hne : ¬ (validateDanceChain
      { title := ("ab"), description := (""), category := ("x"), max_moves := none }).1 = true := by
    rw [h.1]
    intro hc
    exact absurd hc.1 (by decide)
  exact Bool.not_eq_true _ ▸ hne

lemma clamp01_nonneg (q : ℚ) : 0 ≤ clamp01 q := le_max_left 0 _

lemma clamp01_le_one (q : ℚ) : clamp01 q ≤ 1 := max_le zero_le_one (min_le_left 1 q)

/-- Every window score the Similarity Scorer emits lies in `[0,1]`. -/
lemma moveScore_mem (rc cand : List NormalizedPose) (ps : List (ℕ × ℕ)) :
    0 ≤ moveScore rc cand ps ∧ moveScore rc cand ps ≤ 1 := by
  unfold moveScore
  split
  · exact ⟨le_refl 0, zero_le_one⟩
  · exact ⟨clamp01_nonneg _, clamp01_le_one _⟩

/-- Every per-move score the Aligner returns lies in `[0,1]`. -/
lemma align_scores_mem (refs : List ReferenceMove) (cand : List NormalizedPose)
    (out : AlignOutput) (h : align refs cand = some out) :
    ∀ s ∈ out.scores, 0 ≤ s ∧ s ≤ 1 := by
  unfold align at h
  split at h
  · exact absurd h (by simp)
  · split at h
    · exact absurd h (by simp)
    · cases Option.some.inj h
      intro s hs
      simp only [List.mem_map] at hs
      obtain ⟨k, _, rfl⟩ := hs
      exact moveScore_mem _ _ _

/-- The empty-chain branch of `verify_submission` on a normalized candidate
passing the new-move test: Accepted, no per-move scores, whole candidate
proposed. -/
lemma verify_empty_chain_eq (frames : List LandmarkFrame)
    (cfg : VerificationConfig) (cand : List NormalizedPose)
    (hnorm : normalizeAll cfg frames = some cand)
    (hok : newMoveOk cfg cand = true) :
    verify_submission [] frames cfg =
      { decision := Decision.accepted, aggregateScore := aggregateOf [],
        perMoveScores := [], newMoveFrames := some cand, diagnostics := [] } := by
  unfold verify_submission
  split
  · rename_i hn
    rw [hnorm] at hn
    exact absurd hn (by simp)
  · rename_i c hc
    rw [hnorm] at hc
    cases Option.some.inj hc
    rw [if_pos (show ([] : List ReferenceMove).isEmpty = true from rfl), if_pos hok]

/-- The equal-weight mean of scores in `[0,1]` lies in `[0,1]` (and is 0 on
an empty list). -/
lemma aggregateOf_mem (l : List ℚ) (h : ∀ s ∈ l, 0 ≤ s ∧ s ≤ 1) :
    0 ≤ aggregateOf l ∧ aggregateOf l ≤ 1 := by
  unfold aggregateOf
  rcases eq_or_ne l [] with rfl | hne
  · norm_num
  · have hlen : 0 < (l.length : ℚ) := by
      exact_mod_cast List.length_pos.mpr hne
    have hsum0 : 0 ≤ l.sum := List.sum_nonneg fun s hs => (h s hs).1
    have hsum1 : l.sum ≤ (l.length : ℚ) := by
      calc l.sum ≤ l.length • (1 : ℚ) := List.sum_le_card_nsmul l 1 fun s hs => (h s hs).2
        _ = (l.length : ℚ) := by simp
    exact ⟨div_nonneg hsum0 hlen.le, (div_le_one hlen).mpr hsum1⟩

/-- Every accepted `verify_submission` result carries the equal-weight mean
of per-move scores, all of which lie in `[0,1]`. -/
lemma verify_submission_accepted_invariants (refs : List ReferenceMove)
    (frames : List LandmarkFrame) (cfg : VerificationConfig) :
    (verify_submission refs frames cfg).decision = Decision.accepted →
      ((verify_submission refs frames cfg).aggregateScore =
        aggregateOf (verify_submission refs frames cfg).perMoveScores ∧
       ∀ s ∈ (verify_submission refs frames cfg).perMoveScores, 0 ≤ s ∧ s ≤ 1) := by
  unfold verify_submission
  split
  · intro h
    exact absurd h (by simp [rejectWith])
  · rename_i c hc
    split
    · split
      · intro _
        exact ⟨rfl, by simp⟩
      · intro h
        exact absurd h (by simp [rejectWith])
    · split
      · intro h
        exact absurd h (by simp [rejectWith])
      · split
        · intro h
          exact absurd h (by simp [rejectWith])
        · rename_i o ho
          split
          · intro h
            exact absurd h (by simp [rejectWith])
          · split
            · intro _
              exact ⟨rfl, align_scores_mem refs c o ho⟩
            · intro h
              exact absurd h (by simp [rejectWith])

/-- C3: with a non-empty chain, once the pipeline reaches scoring, any
existing-move score below `perMoveThreshold` makes `verify_submission`
return Rejected(IncompletePriorMoves). -/
theorem verify_rejects_incomplete_prior (refs : List ReferenceMove)
    (frames : List LandmarkFrame) (cfg : VerificationConfig)
    (cand : List NormalizedPose) (out : AlignOutput)
    (hnorm : normalizeAll cfg frames = some cand)
    (hne : refs ≠ [])
    (hbudget : refs.flatten.length * cand.length ≤ cfg.maxSequenceCostBudget)
    (halign : align refs cand = some out)
    (hlow : ∃ s ∈ out.scores, s < cfg.perMoveThreshold) :
    (verify_submission refs frames cfg).decision =
      Decision.rejected RejectReason.incompletePriorMoves := by
  have hany : (out.scores.any fun s => decide (s < cfg.perMoveThreshold)) = true := by
    obtain ⟨s, hs, hlt⟩ := hlow
    exact List.any_eq_true.mpr ⟨s, hs, decide_eq_true hlt⟩
  unfold verify_submission
  split
  · rename_i hn
    rw [hnorm] at hn
    exact absurd hn (by simp)
  · rename_i c hc
    rw [hnorm] at hc
    cases Option.some.inj hc
    split
    · rename_i hempty
      exact absurd (List.isEmpty_iff.mp hempty) hne
    · split
      · rename_i hbig
        exact absurd hbig (not_lt.mpr hbudget)
      · split
        · rename_i ha
          rw [halign] at ha
          exact absurd ha (by simp)
        · rename_i o ho
          rw [halign] at ho
          cases Option.some.inj ho
          rw [if_pos hany]
          rfl

/-- C4: with all prior-move checks passed, a candidate whose unmatched tail
is shorter than `minNewMoveFrames` or lacks that many valid-landmark frames
is Rejected(NoNewMoveDetected) — even when every existing move was
reproduced perfectly. -/
theorem verify_rejects_no_new_move (refs : List ReferenceMove)
    (frames : List LandmarkFrame) (cfg : VerificationConfig)
    (cand : List NormalizedPose) (out : AlignOutput)
    (hnorm : normalizeAll cfg frames = some cand)
    (hne : refs ≠ [])
    (hbudget : refs.flatten.length * cand.length ≤ cfg.maxSequenceCostBudget)
    (halign : align refs cand = some out)
    (hok : ∀ s ∈ out.scores, cfg.perMoveThreshold ≤ s)
    (htail : (cand.drop out.tailStart).length < cfg.minNewMoveFrames ∨
      ((cand.drop out.tailStart).filter validFrame).length < cfg.minNewMoveFrames) :
    (verify_submission refs frames cfg).decision =
      Decision.rejected RejectReason.noNewMoveDetected := by
  have hcond : (out.scores.any fun s => decide (s < cfg.perMoveThreshold)) = false := by
    simp only [List.any_eq_false, decide_eq_true_eq]
    exact fun s hs => not_lt.mpr (hok s hs)
  have hnm : newMoveOk cfg (cand.drop out.tailStart) = false := by
    unfold newMoveOk
    rcases htail with h | h
    · rw [decide_eq_false (not_le.mpr h), Bool.false_and]
    · rw [decide_eq_false (not_le.mpr h), Bool.and_false]
  unfold verify_submission
  split
  · rename_i hn
    rw [hnorm] at hn
    exact absurd hn (by simp)
  · rename_i c hc
    rw [hnorm] at hc
    cases Option.some.inj hc
    split
    · rename_i hempty
      exact absurd (List.isEmpty_iff.mp hempty) hne
    · split
      · rename_i hbig
        exact absurd hbig (not_lt.mpr hbudget)
      · split
        · rename_i ha
          rw [halign] at ha
          exact absurd ha (by simp)
        · rename_i o ho
          rw [halign] at ho
          cases Option.some.inj ho
          rw [if_neg (by rw [hcond]; exact Bool.false_ne_true),
            if_neg (by rw [hnm]; exact Bool.false_ne_true)]
          rfl

/-- C5: on an empty chain, every candidate that normalizes and passes the
new-move test is Accepted with an empty score list, and the whole candidate
becomes the proposed new move. -/
theorem verify_empty_chain_accepts (frames : List LandmarkFrame)
    (cfg : VerificationConfig) (cand : List NormalizedPose)
    (hnorm : normalizeAll cfg frames = some cand)
    (hok : newMoveOk cfg cand = true) :
    (verify_submission [] frames cfg).decision = Decision.accepted ∧
    (verify_submission [] frames cfg).perMoveScores = [] ∧
    (verify_submission [] frames cfg).newMoveFrames = some cand := by
  rw [verify_empty_chain_eq frames cfg cand hnorm hok]
  exact ⟨rfl, rfl, rfl⟩

/-- C6: every Accepted result's aggregate score is the equal-weight
arithmetic mean of its per-move scores and lies in `[0,1]`. -/
theorem verify_accepted_aggregate_mean (refs : List ReferenceMove)
    (frames : List LandmarkFrame) (cfg : VerificationConfig)
    (hacc : (verify_submission refs frames cfg).decision = Decision.accepted) :
    (verify_submission refs frames cfg).aggregateScore =
      (verify_submission refs frames cfg).perMoveScores.sum /
        ((verify_submission refs frames cfg).perMoveScores.length : ℚ) ∧
    0 ≤ (verify_submission refs frames cfg).aggregateScore ∧
    (verify_submission refs frames cfg).aggregateScore ≤ 1 := by
  obtain ⟨hag, hmem⟩ := verify_submission_accepted_invariants refs frames cfg hacc
  have hbounds := aggregateOf_mem _ hmem
  rw [hag]
  exact ⟨rfl, hbounds.1, hbounds.2⟩

/-- C7: `verify_submission` is a pure function of its three inputs: two
invocations on equal inputs return equal results, with no side effects in
the model. -/
theorem verify_submission_deterministic (refs1 refs2 : List ReferenceMove)
    (frames1 frames2 : List LandmarkFrame) (cfg1 cfg2 : VerificationConfig)
    (h1 : refs1 = refs2) (h2 : frames1 = frames2) (h3 : cfg1 = cfg2) :
    verify_submission refs1 frames1 cfg1 = verify_submission refs2 frames2 cfg2 := by
  rw [h1, h2, h3]

set_option maxRecDepth 8000 in
/-- Witness for C3: a one-move chain whose single reference pose points
right, against a candidate pointing left — the per-move score 0 falls below
the 3/4 threshold. -/
theorem verify_rejects_incomplete_prior_witness :
    (verify_submission [[poseA]] [kpB] {}).decision =
      Decision.rejected RejectReason.incompletePriorMoves := by
  refine verify_rejects_incomplete_prior [[poseA]] [kpB] {} [poseB]
    { windows := [{ start := 0, stop := 1 }], scores := [0], tailStart := 1 }
    ?_ ?_ ?_ ?_ ?_
  · with_unfolding_all decide
  · simp
  · with_unfolding_all decide
  · with_unfolding_all decide
  · exact ⟨0, by simp, by with_unfolding_all decide⟩

set_option maxRecDepth 8000 in
/-- Witness for C4: a candidate that reproduces the one-move chain perfectly
but adds no tail at all is rejected for lack of a new move. -/
theorem verify_rejects_no_new_move_witness :
    (verify_submission [[poseA]] [kpA] {}).decision =
      Decision.rejected RejectReason.noNewMoveDetected := by
  refine verify_rejects_no_new_move [[poseA]] [kpA] {} [poseA]
    { windows := [{ start := 0, stop := 1 }], scores := [1], tailStart := 1 }
    ?_ ?_ ?_ ?_ ?_ ?_
  · with_unfolding_all decide
  · simp
  · with_unfolding_all decide
  · with_unfolding_all decide
  · intro s hs
    simp only [List.mem_singleton] at hs
    subst hs
    with_unfolding_all decide
  · left
    with_unfolding_all decide

set_option maxRecDepth 8000 in
/-- Witness for C5: with no reference moves, a two-frame candidate meeting a
two-frame minimum is accepted whole, with no per-move scores. -/
theorem verify_empty_chain_accepts_witness :
    (verify_submission [] [kpA, kpA] smallConfig).decision = Decision.accepted ∧
    (verify_submission [] [kpA, kpA] smallConfig).perMoveScores = [] ∧
    (verify_submission [] [kpA, kpA] smallConfig).newMoveFrames = some [poseA, poseA] :=
  verify_empty_chain_accepts [kpA, kpA] smallConfig [poseA, poseA]
    (by with_unfolding_all decide) (by with_unfolding_all decide)

set_option maxRecDepth 8000 in
/-- Witness for C6: the accepted empty-chain submission carries an aggregate
score inside `[0,1]`. -/
theorem verify_accepted_aggregate_mean_witness :
    0 ≤ (verify_submission [] [kpA, kpA] smallConfig).aggregateScore ∧
    (verify_submission [] [kpA, kpA] smallConfig).aggregateScore ≤ 1 := by
  have h := verify_accepted_aggregate_mean [] [kpA, kpA] smallConfig
    (by with_unfolding_all decide)
  exact ⟨h.2.1, h.2.2⟩

/-- Witness for C7: two invocations on the same concrete inputs agree. -/
theorem verify_submission_deterministic_witness :
    verify_submission [[poseA]] [kpA] {} = verify_submission [[poseA]] [kpA] {} :=
  verify_submission_deterministic [[poseA]] [[poseA]] [kpA] [kpA] {} {} rfl rfl rfl

end GroovyGarden
